import Mathlib

/-!
# Verification of the redis-cluster-demo redirect-resolving command router

Shallow embedding of `src/redis-cluster-demo/src/redirect_client.py` and
`src/redis-cluster-demo/src/simple_client.py`.  Python strings are modelled
as lists of characters, the opaque network operation "run this command on
that node's connection" is modelled as a function from the contacted node to
either a reply or a raised exception, and each execution returns the final
result, the final client state and the ordered trace of node contacts.
-/

namespace RedisClusterDemo

/-- A Python string, modelled as its list of characters. -/
abbrev Str := List Char

/-- Coerce a Lean string literal into the `Str` model. -/
def str (s : String) : Str := s.data

/-- `startsWith s pat`: the list `s` begins with the pattern `pat`. -/
def startsWith : Str → Str → Bool
  | _, [] => true
  | [], _ :: _ => false
  | c :: cs, p :: ps => c == p && startsWith cs ps

/-- Fuel-driven scanner for Python `str.replace(pat, '')`: removes every
non-overlapping occurrence of `pat`, scanning left to right.  The fuel is
the length of the scanned list, which suffices because every step consumes
at least one character. -/
def replaceAllFuel (pat : Str) : Nat → Str → Str
  | _, [] => []
  | 0, s => s
  | fuel + 1, c :: cs =>
    if startsWith (c :: cs) pat && !pat.isEmpty then
      replaceAllFuel pat fuel (cs.drop (pat.length - 1))
    else
      c :: replaceAllFuel pat fuel cs

/-- Python `s.replace(pat, '')`. -/
def replaceAll (s pat : Str) : Str := replaceAllFuel pat s.length s

/-- Python `s.strip()`. -/
def strTrim (s : Str) : Str :=
  ((s.dropWhile Char.isWhitespace).reverse.dropWhile Char.isWhitespace).reverse

/-- Accumulator-based splitter behind `splitWs`; `acc` holds the current
word reversed. -/
def splitWsAux : Str → Str → List Str
  | acc, [] => if acc.isEmpty then [] else [acc.reverse]
  | acc, c :: cs =>
    if c.isWhitespace then
      if acc.isEmpty then splitWsAux [] cs else acc.reverse :: splitWsAux [] cs
    else splitWsAux (c :: acc) cs

/-- Python `s.split()` with no argument: splits on runs of whitespace and
drops empty fields. -/
def splitWs (s : Str) : List Str := splitWsAux [] s

/-- Whether Python `int(s)` succeeds: an optional sign followed by at least
one digit (decimal underscore grouping is not modelled; no input of this
repository uses it).  The parsed value itself is discarded by the caller. -/
def isNumericStr : Str → Bool
  | [] => false
  | c :: cs =>
    if c == '-' || c == '+' then !cs.isEmpty && cs.all Char.isDigit
    else (c :: cs).all Char.isDigit

/-- Python `s.rsplit(':', 1)[0]`: everything before the last colon.  Only
used on strings containing a colon. -/
def beforeLastColon (s : Str) : Str :=
  (((s.reverse).dropWhile (fun c => c != ':')).drop 1).reverse

/-- Python `dict.get` on an association list with `Str` keys. -/
def lookupTable : List (Str × Nat) → Str → Option Nat
  | [], _ => none
  | (k, v) :: rest, key => if k = key then some v else lookupTable rest key

/-- `s contains pat` as a substring, Python `pat in s`. -/
def containsSub : Str → Str → Bool
  | [], pat => pat.isEmpty
  | c :: cs, pat => startsWith (c :: cs) pat || containsSub cs pat

/-- A configured cluster member: host and port (`self.nodes` values). -/
structure NodeInfo where
  host : Str
  port : Nat
deriving DecidableEq, Repr

instance : Inhabited NodeInfo := ⟨⟨[], 0⟩⟩

/-- The mutable state of a `RedirectClusterClient`: the static node table,
the container-name alias table, the names of the nodes that connected
(insertion order of `self.clients`), and the shared round-robin counter.
A connected client object is identified by the node name it was opened for. -/
structure RedirectClusterClient where
  nodes : List (Str × NodeInfo)
  container_to_port : List (Str × Nat)
  clients : List Str
  current_client_index : Nat
deriving DecidableEq, Repr

/-- A raised Python exception, as classified by the `except` clauses of the
source: `moved`/`ask` are `redis.exceptions.MovedError` / `AskError` (both
subclasses of `ResponseError`), `resp` is any other `ResponseError`,
`connError` is a `ConnectionError` raised by `_handle_redirect`, `other` is
any other `Exception` (for example a transport failure), and `exhausted` is
the final `Exception` raised after the retry loop of `_execute_command`
completes without returning. -/
inductive PyErr where
  | moved (msg : Str)
  | ask (msg : Str)
  | resp (msg : Str)
  | connError (msg : Str)
  | other (msg : Str)
  | exhausted (maxRedirects : Nat)
deriving DecidableEq, Repr

/-- An observable interaction with a node: `contact c` runs the command
closure on the connection of node `c`; `asking c` sends the priming
`ASKING` command on that connection. -/
inductive Event where
  | contact (client : Str)
  | asking (client : Str)
deriving DecidableEq, Repr

/-- The environment of one `_execute_command` call: `run c` is the outcome
of executing the (fixed) command closure on the connection of node `c`,
and `asking c` is `none` if `execute_command('ASKING')` succeeds on `c`,
or the raised exception. -/
structure World (α : Type) where
  run : Str → Except PyErr α
  asking : Str → Option PyErr

/-- Result of one `_execute_command` call: the returned reply or raised
exception, the client state after the call, and the trace of node
interactions in order. -/
structure RunOut (α : Type) where
  result : Except PyErr α
  state : RedirectClusterClient
  trace : List Event

/-- `RedirectClusterClient._get_any_client`: round-robin over
`list(self.clients.values())` driven by the shared mutable counter.  The
Python code indexes `client_list[index % len(client_list)]`, which raises
on an empty client list; the constructor guarantees non-emptiness, and the
model totalises that dead case with `List.getD`. -/
def get_any_client (st : RedirectClusterClient) : Str × RedirectClusterClient :=
  (st.clients.getD (st.current_client_index % st.clients.length) [],
   { st with current_client_index := st.current_client_index + 1 })

/-- `RedirectClusterClient._parse_redirect`: strips optional `MOVED ` and
`ASK ` markers, splits the remainder, requires at least two fields whose
first parses as an integer (the slot, discarded), takes the container name
before the last colon of the second field and translates it through
`container_to_port`; a falsy (zero) port is treated as a failed lookup,
exactly as Python's `if external_port:` does. -/
def parse_redirect (container_to_port : List (Str × Nat)) (error_msg : Str) : Option Nat :=
  let cleaned := strTrim (replaceAll (replaceAll error_msg (str ("MOVED "))) (str ("ASK ")))
  match splitWs cleaned with
  | slotTok :: target :: _ =>
    if isNumericStr slotTok then
      if target.contains ':' then
        match lookupTable container_to_port (beforeLastColon target) with
        | some p => if p ≠ 0 then some p else none
        | none => none
      else none
    else none
  | _ => none

/-- `RedirectClusterClient._get_client_by_port`: scans `self.nodes` in
order for the first entry with the requested port and returns
`self.clients.get(name)` for it (which is `None` when that node never
connected). -/
def get_client_by_port (st : RedirectClusterClient) (port : Nat) : Option Str :=
  match st.nodes.find? (fun p => p.2.port == port) with
  | some (name, _) => if st.clients.contains name then some name else none
  | none => none

/-- Line 168 of `redirect_client.py`:
`any(char.isdigit() for char in error_msg) and ':' in error_msg` — the
heuristic deciding whether an unlabelled `ResponseError` is treated as a
redirect. -/
def looksLikeRedirect (msg : Str) : Bool :=
  msg.any Char.isDigit && msg.contains ':'

/-- One `MovedError`/`AskError` handling block (lines 134-163 of
`redirect_client.py`), given whether this is the last loop attempt.
Returns `some r` when the block returns or raises (`r`), or `none` when
control falls through to the next loop iteration, together with the node
interactions the block performed. -/
def movedAskHop (w : World α) (st : RedirectClusterClient) (isAsk isLast : Bool)
    (msg : Str) : Option (Except PyErr α) × List Event :=
  let origErr : PyErr := if isAsk then PyErr.ask msg else PyErr.moved msg
  match parse_redirect st.container_to_port msg with
  | some port =>
    match get_client_by_port st port with
    | some tc =>
      let pre : List Event := if isAsk then [Event.asking tc] else []
      match (if isAsk then w.asking tc else none) with
      | some askErr =>
        (if isLast then some (Except.error askErr) else none, pre)
      | none =>
        match w.run tc with
        | Except.ok v => (some (Except.ok v), pre ++ [Event.contact tc])
        | Except.error e2 =>
          (if isLast then some (Except.error e2) else none, pre ++ [Event.contact tc])
    | none => (if isLast then some (Except.error origErr) else none, [])
  | none => (if isLast then some (Except.error origErr) else none, [])

/-- The plain-`ResponseError` handling block (lines 165-185 of
`redirect_client.py`).  Unlike the `MovedError` block it never falls
through to another loop iteration: unless the heuristic retry returns a
value (or, on the last attempt, re-raises the retry failure), the original
error is re-raised. -/
def respHop (w : World α) (st : RedirectClusterClient) (isLast : Bool)
    (msg : Str) : Except PyErr α × List Event :=
  if looksLikeRedirect msg then
    match parse_redirect st.container_to_port msg with
    | some port =>
      match get_client_by_port st port with
      | some tc =>
        match w.run tc with
        | Except.ok v => (Except.ok v, [Event.contact tc])
        | Except.error e2 =>
          (if isLast then Except.error e2 else Except.error (PyErr.resp msg),
           [Event.contact tc])
      | none => (Except.error (PyErr.resp msg), [])
    | none => (Except.error (PyErr.resp msg), [])
  else (Except.error (PyErr.resp msg), [])

/-- The retry loop of `RedirectClusterClient._execute_command`, indexed by
the number of remaining loop iterations (`rem` remaining out of
`maxRedirects`; the Python loop variable satisfies
`attempt = maxRedirects - rem`, so `rem = 1` is the last attempt). -/
def execGo (w : World α) (maxRedirects : Nat) :
    RedirectClusterClient → Nat → List Event → RunOut α
  | st, 0, tr => ⟨Except.error (PyErr.exhausted maxRedirects), st, tr⟩
  | st, rem + 1, tr =>
    let pick := get_any_client st
    let c := pick.1
    let st1 := pick.2
    let tr1 := tr ++ [Event.contact c]
    let isLast : Bool := rem == 0
    match w.run c with
    | Except.ok v => ⟨Except.ok v, st1, tr1⟩
    | Except.error (PyErr.moved msg) =>
      match movedAskHop w st1 false isLast msg with
      | (some r, d) => ⟨r, st1, tr1 ++ d⟩
      | (none, d) => execGo w maxRedirects st1 rem (tr1 ++ d)
    | Except.error (PyErr.ask msg) =>
      match movedAskHop w st1 true isLast msg with
      | (some r, d) => ⟨r, st1, tr1 ++ d⟩
      | (none, d) => execGo w maxRedirects st1 rem (tr1 ++ d)
    | Except.error (PyErr.resp msg) =>
      let pr := respHop w st1 isLast msg
      ⟨pr.1, st1, tr1 ++ pr.2⟩
    | Except.error e =>
      if isLast then ⟨Except.error e, st1, tr1⟩
      else execGo w maxRedirects st1 rem tr1

/-- `RedirectClusterClient._execute_command(command_func, max_redirects)`. -/
def execute_command (w : World α) (st : RedirectClusterClient) (maxRedirects : Nat) :
    RunOut α :=
  execGo w maxRedirects st maxRedirects []

/-- The node client selected by the `k`-th upcoming `_get_any_client` call
(`k = 0` is the next one). -/
def pickAt (st : RedirectClusterClient) (k : Nat) : Str :=
  st.clients.getD ((st.current_client_index + k) % st.clients.length) []

/-- `n` successive `_get_any_client` calls: the picked clients in order and
the state left behind. -/
def pickN (st : RedirectClusterClient) : Nat → List Str × RedirectClusterClient
  | 0 => ([], st)
  | n + 1 =>
    let pr := get_any_client st
    let rest := pickN pr.2 n
    (pr.1 :: rest.1, rest.2)

/-! ## Connection setup -/

/-- The connection loop shared by `RedirectClusterClient._connect_nodes`
(lines 49-73 of `redirect_client.py`) and
`SimpleClusterClient._connect_to_all_nodes` (lines 50-77 of
`simple_client.py`): every configured node is attempted in order;
`pingOk info` says whether `redis.Redis(...).ping()` succeeds for that
address; failures are only printed and the node is skipped. -/
def connectAll (pingOk : NodeInfo → Bool) : List (Str × NodeInfo) → List Str
  | [] => []
  | (name, info) :: rest =>
    if pingOk info then name :: connectAll pingOk rest
    else connectAll pingOk rest

/-- `_connect_nodes` / `_connect_to_all_nodes` as a whole: returns the list
of addresses that were attempted (all of them) and either the connected
client set or the fatal `Exception`/`ConnectionError` raised when
`self.clients` ends up empty. -/
def connect_nodes (pingOk : NodeInfo → Bool) (nodes : List (Str × NodeInfo)) :
    List NodeInfo × Except Str (List Str) :=
  (nodes.map (fun p => p.2),
   let connected := connectAll pingOk nodes
   if connected.isEmpty then Except.error (str ("cannot connect to any node"))
   else Except.ok connected)

/-! ## `SimpleClusterClient` (simple_client.py) -/

/-- Python `self.clients.get`-style lookup used to model dictionary access
`self.clients[name]` of `SimpleClusterClient`: `none` models the
`KeyError` raised when that node never connected. -/
def simpleLookup (clients : List Str) (name : Str) : Option Str :=
  if clients.contains name then some name else none

/-- The text of a caught `ResponseError`, if the exception is one
(`MovedError` and `AskError` are subclasses of `ResponseError`, so all
three carry a message here). -/
def respText : PyErr → Option Str
  | PyErr.moved m => some m
  | PyErr.ask m => some m
  | PyErr.resp m => some m
  | _ => none

/-- `SimpleClusterClient._handle_redirect` (lines 88-126): splits the error
text, substring-matches `parts[1]` against the three known container names
and re-runs the operation on the matching client; if nothing matches it
retries on the default initial client (`_get_initial_client`, the first
connected one).  Any exception inside — a missing dictionary entry or a
failed retry — is wrapped into a `ConnectionError`. -/
def handle_redirect (w : World α) (clients : List Str) (msg : Str) :
    Except PyErr α × List Event :=
  let wrap : Except PyErr α := Except.error (PyErr.connError msg)
  let viaNode (name : Str) : Except PyErr α × List Event :=
    match simpleLookup clients name with
    | some c =>
      match w.run c with
      | Except.ok v => (Except.ok v, [Event.contact c])
      | Except.error _ => (wrap, [Event.contact c])
    | none => (wrap, [])
  match splitWs (strTrim msg) with
  | _ :: target :: _ =>
    if containsSub target (str ("redis-node-1")) then viaNode (str ("node1"))
    else if containsSub target (str ("redis-node-2")) then viaNode (str ("node2"))
    else if containsSub target (str ("redis-node-3")) then viaNode (str ("node3"))
    else
      let c0 := clients.getD 0 []
      match w.run c0 with
      | Except.ok v => (Except.ok v, [Event.contact c0])
      | Except.error _ => (wrap, [Event.contact c0])
  | _ =>
    let c0 := clients.getD 0 []
    match w.run c0 with
    | Except.ok v => (Except.ok v, [Event.contact c0])
    | Except.error _ => (wrap, [Event.contact c0])

/-- The common body of `SimpleClusterClient.set/get/delete/exists`: run the
operation on the initial client; on a `ResponseError` whose text contains
`MOVED`, delegate to `_handle_redirect`; re-raise anything else. -/
def simple_op (w : World α) (clients : List Str) : Except PyErr α × List Event :=
  let c0 := clients.getD 0 []
  match w.run c0 with
  | Except.ok v => (Except.ok v, [Event.contact c0])
  | Except.error e =>
    match respText e with
    | some m =>
      if containsSub m (str ("MOVED")) then
        let pr := handle_redirect w clients m
        (pr.1, Event.contact c0 :: pr.2)
      else (Except.error e, [Event.contact c0])
    | none => (Except.error e, [Event.contact c0])

/-! ## The typed facade of `RedirectClusterClient`

Each public key-value operation builds one command closure and delegates to
`_execute_command` with the default `max_redirects = 5`; the closure's
network behaviour is the `World` argument. -/

namespace RedirectClusterClient

/-- `RedirectClusterClient.set`. -/
def set (w : World α) (st : RedirectClusterClient) : RunOut α := execute_command w st 5

/-- `RedirectClusterClient.get`. -/
def get (w : World α) (st : RedirectClusterClient) : RunOut α := execute_command w st 5

/-- `RedirectClusterClient.delete`. -/
def delete (w : World α) (st : RedirectClusterClient) : RunOut α := execute_command w st 5

/-- `RedirectClusterClient.exists`. -/
def existsKey (w : World α) (st : RedirectClusterClient) : RunOut α := execute_command w st 5

/-- `RedirectClusterClient.incr`. -/
def incr (w : World α) (st : RedirectClusterClient) : RunOut α := execute_command w st 5

/-- `RedirectClusterClient.hset`. -/
def hset (w : World α) (st : RedirectClusterClient) : RunOut α := execute_command w st 5

/-- `RedirectClusterClient.hget`. -/
def hget (w : World α) (st : RedirectClusterClient) : RunOut α := execute_command w st 5

/-- `RedirectClusterClient.hgetall`. -/
def hgetall (w : World α) (st : RedirectClusterClient) : RunOut α := execute_command w st 5

/-- `RedirectClusterClient.lpush`. -/
def lpush (w : World α) (st : RedirectClusterClient) : RunOut α := execute_command w st 5

/-- `RedirectClusterClient.rpush`. -/
def rpush (w : World α) (st : RedirectClusterClient) : RunOut α := execute_command w st 5

/-- `RedirectClusterClient.lpop`. -/
def lpop (w : World α) (st : RedirectClusterClient) : RunOut α := execute_command w st 5

/-- `RedirectClusterClient.llen`. -/
def llen (w : World α) (st : RedirectClusterClient) : RunOut α := execute_command w st 5

/-- `RedirectClusterClient.sadd`. -/
def sadd (w : World α) (st : RedirectClusterClient) : RunOut α := execute_command w st 5

/-- `RedirectClusterClient.smembers`. -/
def smembers (w : World α) (st : RedirectClusterClient) : RunOut α := execute_command w st 5

end RedirectClusterClient

/-- The part of the client state a command call must not mutate: everything
except the round-robin counter. -/
def framePreserved (st : RedirectClusterClient) (out : RunOut α) : Prop :=
  out.state.nodes = st.nodes ∧
  out.state.container_to_port = st.container_to_port ∧
  out.state.clients = st.clients

/-! ## The concrete configuration hard-coded by `RedirectClusterClient.__init__` -/

/-- `self.nodes` as written in `__init__` (lines 29-33). -/
def defaultNodes : List (Str × NodeInfo) :=
  [(str ("node1"), ⟨str ("localhost"), 7001⟩),
   (str ("node2"), ⟨str ("localhost"), 7002⟩),
   (str ("node3"), ⟨str ("localhost"), 7003⟩)]

/-- `self.container_to_port` as written in `__init__` (lines 36-40). -/
def default_container_to_port : List (Str × Nat) :=
  [(str ("redis-node-1"), 7001),
   (str ("redis-node-2"), 7002),
   (str ("redis-node-3"), 7003)]

/-- A fully-connected client, as produced when all three pings succeed. -/
def demoClient : RedirectClusterClient :=
  ⟨defaultNodes, default_container_to_port,
   [str ("node1"), str ("node2"), str ("node3")], 0⟩

/-- A client where only node1 and node2 connected. -/
def demoClient2 : RedirectClusterClient :=
  ⟨defaultNodes, default_container_to_port, [str ("node1"), str ("node2")], 0⟩

/-! ## Concrete worlds used as witnesses and counterexamples -/

/-- Every node answers 42. -/
def okWorld : World Nat := ⟨fun _ => Except.ok 42, fun _ => none⟩

/-- Every node answers MOVED towards redis-node-2. -/
def movedWorld : World Nat :=
  ⟨fun _ => Except.error (PyErr.moved (str ("100 redis-node-2:6379"))), fun _ => none⟩

/-- node1 answers MOVED towards a container absent from the alias table;
every other node answers 42. -/
def unknownAliasWorld : World Nat :=
  ⟨fun c => if c = str ("node1") then
      Except.error (PyErr.moved (str ("100 unknown-node:6379")))
    else Except.ok 42,
   fun _ => none⟩

/-- Every node raises a `ResponseError` whose text contains `MOVED` but
names a container absent from every table. -/
def simpleFallbackWorld : World Nat :=
  ⟨fun _ => Except.error (PyErr.resp (str ("MOVED 100 unknown-node:6379"))), fun _ => none⟩

/-- Every node is unreachable at the transport level. -/
def downWorld : World Nat :=
  ⟨fun _ => Except.error (PyErr.other (str ("Connection refused"))), fun _ => none⟩

/-- node1 is unreachable, every other node answers 7. -/
def failoverWorld : World Nat :=
  ⟨fun c => if c = str ("node1") then
      Except.error (PyErr.other (str ("Connection refused")))
    else Except.ok 7,
   fun _ => none⟩

/-- Every node raises a non-redirect `ResponseError` (no digit, no colon). -/
def wrongTypeWorld : World Nat :=
  ⟨fun _ => Except.error (PyErr.resp (str ("WRONGTYPE Operation against a key"))), fun _ => none⟩

/-- node1 raises an `AskError` pointing at redis-node-2; node2 answers 7. -/
def askWorld : World Nat :=
  ⟨fun c => if c = str ("node1") then
      Except.error (PyErr.ask (str ("100 redis-node-2:6379")))
    else Except.ok 7,
   fun _ => none⟩

/-- node1 raises a plain `ResponseError` that matches the digit-and-colon
heuristic and names redis-node-3; node3 answers 5. -/
def heuristicWorld : World Nat :=
  ⟨fun c => if c = str ("node1") then
      Except.error (PyErr.resp (str ("9999 redis-node-3:6379")))
    else Except.ok 5,
   fun _ => none⟩

/-- node1 raises an `AskError` naming a container absent from the alias
table; every other node answers 42. -/
def askUnresWorld : World Nat :=
  ⟨fun c => if c = str ("node1") then
      Except.error (PyErr.ask (str ("100 unknown-node:6379")))
    else Except.ok 42,
   fun _ => none⟩

/-- node1 raises a plain `ResponseError` that matches the digit-and-colon
heuristic but names a container absent from the alias table; every other
node answers 42. -/
def heuristicUnresWorld : World Nat :=
  ⟨fun c => if c = str ("node1") then
      Except.error (PyErr.resp (str ("100 unknown-node:6379")))
    else Except.ok 42,
   fun _ => none⟩

/-! ## Helper lemmas about single loop iterations -/

theorem get_any_client_fst (st : RedirectClusterClient) :
    (get_any_client st).1 = pickAt st 0 := rfl

theorem get_any_client_fst2 (st : RedirectClusterClient) :
    (get_any_client (get_any_client st).2).1 = pickAt st 1 := rfl

@[simp] theorem get_any_client_ctp (st : RedirectClusterClient) :
    (get_any_client st).2.container_to_port = st.container_to_port := rfl

@[simp] theorem get_any_client_nodes (st : RedirectClusterClient) :
    (get_any_client st).2.nodes = st.nodes := rfl

@[simp] theorem get_any_client_clients (st : RedirectClusterClient) :
    (get_any_client st).2.clients = st.clients := rfl

@[simp] theorem get_any_client_index (st : RedirectClusterClient) :
    (get_any_client st).2.current_client_index = st.current_client_index + 1 := rfl

@[simp] theorem get_client_by_port_pick (st : RedirectClusterClient) (port : Nat) :
    get_client_by_port (get_any_client st).2 port = get_client_by_port st port := rfl

/-- A successful first contact returns immediately. -/
theorem execGo_ok_step (w : World α) (m rem : Nat) (st : RedirectClusterClient)
    (tr : List Event) (v : α)
    (h : w.run (get_any_client st).1 = Except.ok v) :
    execGo w m st (rem + 1) tr =
      ⟨Except.ok v, (get_any_client st).2, tr ++ [Event.contact (get_any_client st).1]⟩ := by
  simp only [execGo, h]

/-- A non-redirect `ResponseError` is re-raised at once, on any attempt. -/
theorem execGo_resp_norx_step (w : World α) (m rem : Nat) (st : RedirectClusterClient)
    (tr : List Event) (msg : Str)
    (h : w.run (get_any_client st).1 = Except.error (PyErr.resp msg))
    (hx : looksLikeRedirect msg = false) :
    execGo w m st (rem + 1) tr =
      ⟨Except.error (PyErr.resp msg), (get_any_client st).2,
       tr ++ [Event.contact (get_any_client st).1]⟩ := by
  simp only [execGo, h, respHop, hx, Bool.false_eq_true, if_false, List.append_nil]

/-- A heuristic-redirect `ResponseError` whose target resolves, on a
non-final attempt: one retry on the target, then either return its value
or re-raise the original error. -/
theorem execGo_resp_rx_step (w : World α) (m rem : Nat) (st : RedirectClusterClient)
    (tr : List Event) (msg : Str) (port : Nat) (tc : Str)
    (h : w.run (get_any_client st).1 = Except.error (PyErr.resp msg))
    (hx : looksLikeRedirect msg = true)
    (hp : parse_redirect st.container_to_port msg = some port)
    (hl : get_client_by_port st port = some tc)
    (hL : (rem == 0) = false) :
    execGo w m st (rem + 1) tr =
      ⟨(match w.run tc with
        | Except.ok v => Except.ok v
        | Except.error _ => Except.error (PyErr.resp msg)),
       (get_any_client st).2,
       tr ++ [Event.contact (get_any_client st).1, Event.contact tc]⟩ := by
  simp only [execGo, h, respHop, hx, if_true, get_any_client_ctp, hp,
    get_client_by_port_pick, hl, hL, Bool.false_eq_true, if_false]
  cases htc : w.run tc <;> simp [htc]

/-- A `MovedError` whose target does not resolve (alias missing, or no
connected client for the port), on a non-final attempt: control falls
through to the next loop iteration with no extra node contact. -/
theorem execGo_moved_unres_step (w : World α) (m rem : Nat) (st : RedirectClusterClient)
    (tr : List Event) (msg : Str)
    (h : w.run (get_any_client st).1 = Except.error (PyErr.moved msg))
    (hunres : parse_redirect st.container_to_port msg = none ∨
      ∃ port, parse_redirect st.container_to_port msg = some port ∧
        get_client_by_port st port = none)
    (hL : (rem == 0) = false) :
    execGo w m st (rem + 1) tr =
      execGo w m (get_any_client st).2 rem (tr ++ [Event.contact (get_any_client st).1]) := by
  rcases hunres with hp | ⟨port, hp, hl⟩
  · simp only [execGo, h, movedAskHop, get_any_client_ctp, hp, hL, Bool.false_eq_true,
      if_false, List.append_nil]
  · simp only [execGo, h, movedAskHop, get_any_client_ctp, hp, get_client_by_port_pick,
      hl, hL, Bool.false_eq_true, if_false, List.append_nil]

/-- A `MovedError` whose target does not resolve, on the final attempt:
the original redirect error is re-raised. -/
theorem execGo_moved_unres_last (w : World α) (m : Nat) (st : RedirectClusterClient)
    (tr : List Event) (msg : Str)
    (h : w.run (get_any_client st).1 = Except.error (PyErr.moved msg))
    (hunres : parse_redirect st.container_to_port msg = none ∨
      ∃ port, parse_redirect st.container_to_port msg = some port ∧
        get_client_by_port st port = none) :
    execGo w m st 1 tr =
      ⟨Except.error (PyErr.moved msg), (get_any_client st).2,
       tr ++ [Event.contact (get_any_client st).1]⟩ := by
  rcases hunres with hp | ⟨port, hp, hl⟩
  · simp [execGo, h, movedAskHop, hp]
  · simp [execGo, h, movedAskHop, hp, hl]

/-- An `AskError` whose target does not resolve (alias missing, or no
connected client for the port), on a non-final attempt: control falls
through to the next loop iteration with no extra node contact and no
priming call. -/
theorem execGo_ask_unres_step (w : World α) (m rem : Nat) (st : RedirectClusterClient)
    (tr : List Event) (msg : Str)
    (h : w.run (get_any_client st).1 = Except.error (PyErr.ask msg))
    (hunres : parse_redirect st.container_to_port msg = none ∨
      ∃ port, parse_redirect st.container_to_port msg = some port ∧
        get_client_by_port st port = none)
    (hL : (rem == 0) = false) :
    execGo w m st (rem + 1) tr =
      execGo w m (get_any_client st).2 rem (tr ++ [Event.contact (get_any_client st).1]) := by
  rcases hunres with hp | ⟨port, hp, hl⟩
  · simp only [execGo, h, movedAskHop, get_any_client_ctp, hp, hL, Bool.false_eq_true,
      if_false, List.append_nil]
  · simp only [execGo, h, movedAskHop, get_any_client_ctp, hp, get_client_by_port_pick,
      hl, hL, Bool.false_eq_true, if_false, List.append_nil]

/-- An `AskError` whose target does not resolve, on the final attempt: the
original redirect error is re-raised. -/
theorem execGo_ask_unres_last (w : World α) (m : Nat) (st : RedirectClusterClient)
    (tr : List Event) (msg : Str)
    (h : w.run (get_any_client st).1 = Except.error (PyErr.ask msg))
    (hunres : parse_redirect st.container_to_port msg = none ∨
      ∃ port, parse_redirect st.container_to_port msg = some port ∧
        get_client_by_port st port = none) :
    execGo w m st 1 tr =
      ⟨Except.error (PyErr.ask msg), (get_any_client st).2,
       tr ++ [Event.contact (get_any_client st).1]⟩ := by
  rcases hunres with hp | ⟨port, hp, hl⟩
  · simp [execGo, h, movedAskHop, hp]
  · simp [execGo, h, movedAskHop, hp, hl]

/-- A plain `ResponseError` whose target does not resolve: the original
error is re-raised immediately after the single contact, on any attempt —
the heuristic block never falls through to another loop iteration
(`raise e` at line 185 of `redirect_client.py` is unconditional). -/
theorem execGo_resp_unres_step (w : World α) (m rem : Nat) (st : RedirectClusterClient)
    (tr : List Event) (msg : Str)
    (h : w.run (get_any_client st).1 = Except.error (PyErr.resp msg))
    (hunres : parse_redirect st.container_to_port msg = none ∨
      ∃ port, parse_redirect st.container_to_port msg = some port ∧
        get_client_by_port st port = none) :
    execGo w m st (rem + 1) tr =
      ⟨Except.error (PyErr.resp msg), (get_any_client st).2,
       tr ++ [Event.contact (get_any_client st).1]⟩ := by
  cases hx : looksLikeRedirect msg
  · rcases hunres with hp | ⟨port, hp, hl⟩ <;>
      simp [execGo, h, respHop, hx]
  · rcases hunres with hp | ⟨port, hp, hl⟩
    · simp [execGo, h, respHop, hx, hp]
    · simp [execGo, h, respHop, hx, hp, hl]

/-- A `MovedError` whose target resolves and accepts: the retried value is
returned, on any attempt. -/
theorem execGo_moved_tc_ok_step (w : World α) (m rem : Nat) (st : RedirectClusterClient)
    (tr : List Event) (msg : Str) (port : Nat) (tc : Str) (v : α)
    (h : w.run (get_any_client st).1 = Except.error (PyErr.moved msg))
    (hp : parse_redirect st.container_to_port msg = some port)
    (hl : get_client_by_port st port = some tc)
    (htc : w.run tc = Except.ok v) :
    execGo w m st (rem + 1) tr =
      ⟨Except.ok v, (get_any_client st).2,
       tr ++ [Event.contact (get_any_client st).1, Event.contact tc]⟩ := by
  simp only [execGo, h, movedAskHop, get_any_client_ctp, hp, get_client_by_port_pick,
    hl, htc, if_neg, Bool.false_eq_true, List.nil_append]
  simp

/-- A `MovedError` whose target resolves but fails again, on a non-final
attempt: control falls through to the next iteration after the extra
contact. -/
theorem execGo_moved_tc_cont_step (w : World α) (m rem : Nat) (st : RedirectClusterClient)
    (tr : List Event) (msg : Str) (port : Nat) (tc : Str) (e2 : PyErr)
    (h : w.run (get_any_client st).1 = Except.error (PyErr.moved msg))
    (hp : parse_redirect st.container_to_port msg = some port)
    (hl : get_client_by_port st port = some tc)
    (htc : w.run tc = Except.error e2)
    (hL : (rem == 0) = false) :
    execGo w m st (rem + 1) tr =
      execGo w m (get_any_client st).2 rem
        (tr ++ [Event.contact (get_any_client st).1, Event.contact tc]) := by
  simp only [execGo, h, movedAskHop, get_any_client_ctp, hp, get_client_by_port_pick,
    hl, htc, hL, Bool.false_eq_true, if_false, List.nil_append]
  simp

/-- A `MovedError` whose target resolves but fails again, on the final
attempt: the retry failure itself is raised. -/
theorem execGo_moved_tc_last (w : World α) (m : Nat) (st : RedirectClusterClient)
    (tr : List Event) (msg : Str) (port : Nat) (tc : Str) (e2 : PyErr)
    (h : w.run (get_any_client st).1 = Except.error (PyErr.moved msg))
    (hp : parse_redirect st.container_to_port msg = some port)
    (hl : get_client_by_port st port = some tc)
    (htc : w.run tc = Except.error e2) :
    execGo w m st 1 tr =
      ⟨Except.error e2, (get_any_client st).2,
       tr ++ [Event.contact (get_any_client st).1, Event.contact tc]⟩ := by
  simp only [execGo, h, movedAskHop, get_any_client_ctp, hp, get_client_by_port_pick,
    hl, htc, beq_self_eq_true, if_true, List.nil_append]
  simp

/-- An `AskError` whose target resolves, `ASKING` succeeds and the retried
command succeeds: the priming call happens strictly between the two
command contacts, on any attempt. -/
theorem execGo_ask_tc_ok_step (w : World α) (m rem : Nat) (st : RedirectClusterClient)
    (tr : List Event) (msg : Str) (port : Nat) (tc : Str) (v : α)
    (h : w.run (get_any_client st).1 = Except.error (PyErr.ask msg))
    (hp : parse_redirect st.container_to_port msg = some port)
    (hl : get_client_by_port st port = some tc)
    (ha : w.asking tc = none)
    (htc : w.run tc = Except.ok v) :
    execGo w m st (rem + 1) tr =
      ⟨Except.ok v, (get_any_client st).2,
       tr ++ [Event.contact (get_any_client st).1, Event.asking tc, Event.contact tc]⟩ := by
  simp only [execGo, h, movedAskHop, get_any_client_ctp, hp, get_client_by_port_pick,
    hl, ha, htc, if_true]
  simp

/-- An `AskError` whose target resolves, `ASKING` succeeds but the retried
command fails, on a non-final attempt: control falls through. -/
theorem execGo_ask_tc_cont_step (w : World α) (m rem : Nat) (st : RedirectClusterClient)
    (tr : List Event) (msg : Str) (port : Nat) (tc : Str) (e2 : PyErr)
    (h : w.run (get_any_client st).1 = Except.error (PyErr.ask msg))
    (hp : parse_redirect st.container_to_port msg = some port)
    (hl : get_client_by_port st port = some tc)
    (ha : w.asking tc = none)
    (htc : w.run tc = Except.error e2)
    (hL : (rem == 0) = false) :
    execGo w m st (rem + 1) tr =
      execGo w m (get_any_client st).2 rem
        (tr ++ [Event.contact (get_any_client st).1, Event.asking tc, Event.contact tc]) := by
  simp only [execGo, h, movedAskHop, get_any_client_ctp, hp, get_client_by_port_pick,
    hl, ha, htc, hL, Bool.false_eq_true, if_false, if_true]
  simp

/-- A generic exception (for example a transport failure), on a non-final
attempt: the loop silently moves on to the next pick. -/
theorem execGo_other_cont_step (w : World α) (m rem : Nat) (st : RedirectClusterClient)
    (tr : List Event) (msg : Str)
    (h : w.run (get_any_client st).1 = Except.error (PyErr.other msg))
    (hL : (rem == 0) = false) :
    execGo w m st (rem + 1) tr =
      execGo w m (get_any_client st).2 rem (tr ++ [Event.contact (get_any_client st).1]) := by
  simp only [execGo, h, hL, Bool.false_eq_true, if_false]

/-- The retry loop never touches the node table, the alias table or the
connected-client set: the only field it writes is the round-robin counter,
through `_get_any_client`. -/
theorem execGo_frame (w : World α) (m : Nat) :
    ∀ (rem : Nat) (st : RedirectClusterClient) (tr : List Event),
      framePreserved st (execGo w m st rem tr) := by
  intro rem
  induction rem with
  | zero => intro st tr; exact ⟨rfl, rfl, rfl⟩
  | succ n ih =>
    intro st tr
    rcases hr : w.run (get_any_client st).1 with e | v
    · rcases e with msg | msg | msg | msg | msg | mr
      · rcases hm : movedAskHop w (get_any_client st).2 false (n == 0) msg with ⟨ro, d⟩
        rcases ro with _ | r
        · simp only [execGo, hr, hm]; exact ih (get_any_client st).2 _
        · simp only [execGo, hr, hm]; exact ⟨rfl, rfl, rfl⟩
      · rcases hm : movedAskHop w (get_any_client st).2 true (n == 0) msg with ⟨ro, d⟩
        rcases ro with _ | r
        · simp only [execGo, hr, hm]; exact ih (get_any_client st).2 _
        · simp only [execGo, hr, hm]; exact ⟨rfl, rfl, rfl⟩
      · simp only [execGo, hr]; exact ⟨rfl, rfl, rfl⟩
      all_goals
        rcases n with _ | k
        · simp only [execGo, hr]; exact ⟨rfl, rfl, rfl⟩
        · simp only [execGo, hr]; exact ih (get_any_client st).2 _
    · simp only [execGo, hr]; exact ⟨rfl, rfl, rfl⟩

/-- The retry loop only ever appends to its trace accumulator. -/
theorem execGo_trace_mono (w : World α) (m : Nat) :
    ∀ (rem : Nat) (st : RedirectClusterClient) (tr : List Event),
      ∃ ext, (execGo w m st rem tr).trace = tr ++ ext := by
  intro rem
  induction rem with
  | zero => intro st tr; exact ⟨[], by simp [execGo]⟩
  | succ n ih =>
    intro st tr
    rcases hr : w.run (get_any_client st).1 with e | v
    · rcases e with msg | msg | msg | msg | msg | mr
      · rcases hm : movedAskHop w (get_any_client st).2 false (n == 0) msg with ⟨ro, d⟩
        rcases ro with _ | r
        · obtain ⟨ext, he⟩ := ih (get_any_client st).2
            ((tr ++ [Event.contact (get_any_client st).1]) ++ d)
          exact ⟨[Event.contact (get_any_client st).1] ++ d ++ ext,
            by simp only [execGo, hr, hm, he]; simp⟩
        · exact ⟨[Event.contact (get_any_client st).1] ++ d,
            by simp only [execGo, hr, hm]; simp⟩
      · rcases hm : movedAskHop w (get_any_client st).2 true (n == 0) msg with ⟨ro, d⟩
        rcases ro with _ | r
        · obtain ⟨ext, he⟩ := ih (get_any_client st).2
            ((tr ++ [Event.contact (get_any_client st).1]) ++ d)
          exact ⟨[Event.contact (get_any_client st).1] ++ d ++ ext,
            by simp only [execGo, hr, hm, he]; simp⟩
        · exact ⟨[Event.contact (get_any_client st).1] ++ d,
            by simp only [execGo, hr, hm]; simp⟩
      · exact ⟨[Event.contact (get_any_client st).1] ++
          (respHop w (get_any_client st).2 (n == 0) msg).2,
          by simp only [execGo, hr]; simp⟩
      all_goals
        rcases n with _ | k
        · exact ⟨[Event.contact (get_any_client st).1], by simp [execGo, hr]⟩
        · obtain ⟨ext, he⟩ := ih (get_any_client st).2
            (tr ++ [Event.contact (get_any_client st).1])
          refine ⟨[Event.contact (get_any_client st).1] ++ ext, ?_⟩
          simp only [execGo, hr]
          show (execGo w m (get_any_client st).2 (k + 1)
            (tr ++ [Event.contact (get_any_client st).1])).trace = _
          rw [he]; simp
    · exact ⟨[Event.contact (get_any_client st).1], by simp only [execGo, hr]⟩

/-- Full behaviour of `n` successive `_get_any_client` calls: the counter
advances by exactly one per call, the client set is untouched, and the
`j`-th call returns the client at index `(start + j) mod k`. -/
theorem pickN_spec (n : Nat) : ∀ st : RedirectClusterClient,
    (pickN st n).2.current_client_index = st.current_client_index + n ∧
    (pickN st n).2.clients = st.clients ∧
    (pickN st n).1.length = n ∧
    ∀ j, j < n → (pickN st n).1[j]? = some (pickAt st j) := by
  induction n with
  | zero =>
    intro st
    exact ⟨rfl, rfl, rfl, fun j hj => absurd hj (Nat.not_lt_zero j)⟩
  | succ n ih =>
    intro st
    obtain ⟨ih1, ih2, ih3, ih4⟩ := ih (get_any_client st).2
    refine ⟨?_, ?_, ?_, ?_⟩
    · show (pickN (get_any_client st).2 n).2.current_client_index = _
      rw [ih1, get_any_client_index]; omega
    · show (pickN (get_any_client st).2 n).2.clients = _
      rw [ih2, get_any_client_clients]
    · show ((get_any_client st).1 :: (pickN (get_any_client st).2 n).1).length = n + 1
      simp [ih3]
    · intro j hj
      cases j with
      | zero =>
        show ((get_any_client st).1 :: (pickN (get_any_client st).2 n).1)[0]? = _
        simp [get_any_client_fst]
      | succ k =>
        show ((get_any_client st).1 :: (pickN (get_any_client st).2 n).1)[k + 1]? = _
        have hk : k < n := by omega
        have := ih4 k hk
        simp only [List.getElem?_cons_succ, this]
        congr 1
        show pickAt (get_any_client st).2 k = pickAt st (k + 1)
        simp only [pickAt, get_any_client_clients, get_any_client_index]
        congr 2
        omega

/-- The connected set is empty exactly when every ping failed. -/
theorem connectAll_eq_nil_iff (pingOk : NodeInfo → Bool) :
    ∀ nodes : List (Str × NodeInfo),
      connectAll pingOk nodes = [] ↔ ∀ p ∈ nodes, pingOk p.2 = false := by
  intro nodes
  induction nodes with
  | nil => simp [connectAll]
  | cons hd tl ih =>
    obtain ⟨name, info⟩ := hd
    by_cases hping : pingOk info = true
    · simp [connectAll, hping]
    · have hping' : pingOk info = false := by
        cases hpp : pingOk info
        · rfl
        · exact absurd hpp hping
      simp [connectAll, hping', ih]

/-! ## Claims -/

/-- C5: a command executed against a node that returns a reply without
raising is returned unchanged to the caller, after exactly one node
contact. -/
theorem C5_success_single_contact (w : World α) (st : RedirectClusterClient) (v : α)
    (h : w.run (pickAt st 0) = Except.ok v) :
    (execute_command w st 5).result = Except.ok v ∧
    (execute_command w st 5).trace = [Event.contact (pickAt st 0)] := by
  have e : execute_command w st 5 =
      ⟨Except.ok v, (get_any_client st).2, [Event.contact (pickAt st 0)]⟩ :=
    execGo_ok_step w 5 4 st [] v h
  rw [e]
  exact ⟨rfl, rfl⟩

/-- Witness for C5 at a concrete world and client. -/
theorem C5_success_single_contact_witness :
    (execute_command okWorld demoClient 5).result = Except.ok 42 ∧
    (execute_command okWorld demoClient 5).trace = [Event.contact (str ("node1"))] :=
  C5_success_single_contact okWorld demoClient 42 rfl

/-- C3: a node-reported error with no MOVED/ASK marker that also fails the
digit-and-colon heuristic is propagated verbatim after exactly one node
contact, with no retry. -/
theorem C3_non_redirect_propagated (w : World α) (st : RedirectClusterClient) (msg : Str)
    (h : w.run (pickAt st 0) = Except.error (PyErr.resp msg))
    (hx : looksLikeRedirect msg = false) :
    (execute_command w st 5).result = Except.error (PyErr.resp msg) ∧
    (execute_command w st 5).trace = [Event.contact (pickAt st 0)] := by
  have e : execute_command w st 5 =
      ⟨Except.error (PyErr.resp msg), (get_any_client st).2, [Event.contact (pickAt st 0)]⟩ :=
    execGo_resp_norx_step w 5 4 st [] msg h hx
  rw [e]
  exact ⟨rfl, rfl⟩

/-- Witness for C3 at a concrete world and client. -/
theorem C3_non_redirect_propagated_witness :
    (execute_command wrongTypeWorld demoClient 5).result
      = Except.error (PyErr.resp (str ("WRONGTYPE Operation against a key"))) ∧
    (execute_command wrongTypeWorld demoClient 5).trace = [Event.contact (str ("node1"))] :=
  C3_non_redirect_propagated wrongTypeWorld demoClient
    (str ("WRONGTYPE Operation against a key")) rfl rfl

/-- C4: an ASK-classified failure whose target resolves issues the priming
`ASKING` call on the resolved target's connection strictly before the
retried command, which is sent on that same connection exactly once within
the hop. -/
theorem C4_ask_priming (w : World α) (st : RedirectClusterClient) (msg : Str)
    (port : Nat) (tc : Str)
    (h : w.run (pickAt st 0) = Except.error (PyErr.ask msg))
    (hp : parse_redirect st.container_to_port msg = some port)
    (hl : get_client_by_port st port = some tc)
    (ha : w.asking tc = none) :
    (∀ v, w.run tc = Except.ok v →
      (execute_command w st 5).result = Except.ok v ∧
      (execute_command w st 5).trace =
        [Event.contact (pickAt st 0), Event.asking tc, Event.contact tc]) ∧
    (∃ rest, (execute_command w st 5).trace =
      [Event.contact (pickAt st 0), Event.asking tc, Event.contact tc] ++ rest) := by
  constructor
  · intro v htc
    have e : execute_command w st 5 = ⟨Except.ok v, (get_any_client st).2,
        [Event.contact (pickAt st 0), Event.asking tc, Event.contact tc]⟩ :=
      execGo_ask_tc_ok_step w 5 4 st [] msg port tc v h hp hl ha htc
    rw [e]
    exact ⟨rfl, rfl⟩
  · rcases htc : w.run tc with e2 | v
    · have e : execute_command w st 5 = execGo w 5 (get_any_client st).2 4
          [Event.contact (pickAt st 0), Event.asking tc, Event.contact tc] :=
        execGo_ask_tc_cont_step w 5 4 st [] msg port tc e2 h hp hl ha htc rfl
      obtain ⟨ext, he⟩ := execGo_trace_mono w 5 4 (get_any_client st).2
        [Event.contact (pickAt st 0), Event.asking tc, Event.contact tc]
      exact ⟨ext, by rw [e, he]⟩
    · have e : execute_command w st 5 = ⟨Except.ok v, (get_any_client st).2,
          [Event.contact (pickAt st 0), Event.asking tc, Event.contact tc]⟩ :=
        execGo_ask_tc_ok_step w 5 4 st [] msg port tc v h hp hl ha htc
      exact ⟨[], by rw [e]; simp⟩

/-- Witness for C4 at a concrete world and client. -/
theorem C4_ask_priming_witness :
    (execute_command askWorld demoClient 5).result = Except.ok 7 ∧
    (execute_command askWorld demoClient 5).trace =
      [Event.contact (str ("node1")), Event.asking (str ("node2")),
       Event.contact (str ("node2"))] :=
  (C4_ask_priming askWorld demoClient (str ("100 redis-node-2:6379")) 7002
    (str ("node2")) rfl rfl rfl rfl).1 7 rfl

/-- C8: a node-reported error payload without explicit MOVED/ASK marker is
treated as a heuristic redirect exactly when its text contains a digit and
a colon; otherwise it is propagated at once with no redirect attempt; with
the heuristic triggered and a resolvable target, one retry is sent to the
target (with no priming call) and a retry failure re-raises the original
error. -/
theorem C8_heuristic_classification (w : World α) (st : RedirectClusterClient) (msg : Str)
    (port : Nat) (tc : Str)
    (h : w.run (pickAt st 0) = Except.error (PyErr.resp msg)) :
    (looksLikeRedirect msg = (msg.any Char.isDigit && msg.contains ':')) ∧
    (looksLikeRedirect msg = false →
      (execute_command w st 5).result = Except.error (PyErr.resp msg) ∧
      (execute_command w st 5).trace = [Event.contact (pickAt st 0)]) ∧
    (looksLikeRedirect msg = true →
      parse_redirect st.container_to_port msg = some port →
      get_client_by_port st port = some tc →
      (execute_command w st 5).trace =
        [Event.contact (pickAt st 0), Event.contact tc] ∧
      (∀ v, w.run tc = Except.ok v → (execute_command w st 5).result = Except.ok v) ∧
      (∀ e2, w.run tc = Except.error e2 →
        (execute_command w st 5).result = Except.error (PyErr.resp msg))) := by
  refine ⟨rfl, ?_, ?_⟩
  · intro hx
    have e : execute_command w st 5 =
        ⟨Except.error (PyErr.resp msg), (get_any_client st).2,
         [Event.contact (pickAt st 0)]⟩ :=
      execGo_resp_norx_step w 5 4 st [] msg h hx
    rw [e]
    exact ⟨rfl, rfl⟩
  · intro hx hp hl
    have e : execute_command w st 5 =
        ⟨(match w.run tc with
          | Except.ok v => Except.ok v
          | Except.error _ => Except.error (PyErr.resp msg)),
         (get_any_client st).2,
         [Event.contact (pickAt st 0), Event.contact tc]⟩ :=
      execGo_resp_rx_step w 5 4 st [] msg port tc h hx hp hl rfl
    refine ⟨by rw [e], ?_, ?_⟩
    · intro v hv
      rw [e]
      show (match w.run tc with
        | Except.ok v => Except.ok v
        | Except.error _ => Except.error (PyErr.resp msg)) = Except.ok v
      rw [hv]
    · intro e2 hv
      rw [e]
      show (match w.run tc with
        | Except.ok v => Except.ok v
        | Except.error _ => Except.error (PyErr.resp msg)) = Except.error (PyErr.resp msg)
      rw [hv]

/-- Witness for C8 at a concrete world and client: the heuristic branch. -/
theorem C8_heuristic_classification_witness :
    (execute_command heuristicWorld demoClient 5).trace =
      [Event.contact (str ("node1")), Event.contact (str ("node3"))] ∧
    (execute_command heuristicWorld demoClient 5).result = Except.ok 5 := by
  have H := (C8_heuristic_classification heuristicWorld demoClient
    (str ("9999 redis-node-3:6379")) 7003 (str ("node3")) rfl).2.2 rfl rfl rfl
  exact ⟨H.1, H.2.1 5 rfl⟩

/-- C9: initial node selection is a deterministic round-robin over the
connected clients through the shared mutable counter: each call increments
the counter by one, never changes the client list, and the `j`-th of `n`
successive calls starting at counter `i` returns the client at index
`(i + j) mod k`. -/
theorem C9_round_robin (st : RedirectClusterClient) (n j : Nat) (hj : j < n) :
    (get_any_client st).2.current_client_index = st.current_client_index + 1 ∧
    (get_any_client st).2.clients = st.clients ∧
    (pickN st n).2.current_client_index = st.current_client_index + n ∧
    (pickN st n).1.length = n ∧
    (pickN st n).1[j]? =
      some (st.clients.getD
        ((st.current_client_index + j) % st.clients.length) []) := by
  obtain ⟨h1, h2, h3, h4⟩ := pickN_spec n st
  exact ⟨rfl, rfl, h1, h3, h4 j hj⟩

/-- Witness for C9: four picks on the three-node client wrap around. -/
theorem C9_round_robin_witness :
    (pickN demoClient 4).2.current_client_index = 4 ∧
    (pickN demoClient 4).1.length = 4 ∧
    (pickN demoClient 4).1[3]? = some (str ("node1")) := by
  have H := C9_round_robin demoClient 4 3 (by decide)
  exact ⟨H.2.2.1, H.2.2.2.1, H.2.2.2.2⟩

/-- C10: every public key-value operation of `RedirectClusterClient`
leaves the node table, the connection map and the alias table unchanged,
whatever the world does; only the round-robin counter may move. -/
theorem C10_ops_frame (w : World α) (st : RedirectClusterClient) :
    framePreserved st (RedirectClusterClient.set w st) ∧
    framePreserved st (RedirectClusterClient.get w st) ∧
    framePreserved st (RedirectClusterClient.delete w st) ∧
    framePreserved st (RedirectClusterClient.existsKey w st) ∧
    framePreserved st (RedirectClusterClient.incr w st) ∧
    framePreserved st (RedirectClusterClient.hset w st) ∧
    framePreserved st (RedirectClusterClient.hget w st) ∧
    framePreserved st (RedirectClusterClient.hgetall w st) ∧
    framePreserved st (RedirectClusterClient.lpush w st) ∧
    framePreserved st (RedirectClusterClient.rpush w st) ∧
    framePreserved st (RedirectClusterClient.lpop w st) ∧
    framePreserved st (RedirectClusterClient.llen w st) ∧
    framePreserved st (RedirectClusterClient.sadd w st) ∧
    framePreserved st (RedirectClusterClient.smembers w st) := by
  have F := execGo_frame w 5 5 st []
  exact ⟨F, F, F, F, F, F, F, F, F, F, F, F, F, F⟩

/-- C6: initialization attempts every configured address, treats
per-address failures as non-fatal (a failed node is simply skipped),
succeeds exactly when at least one connection succeeds, and a successful
construction always holds at least one connected node. -/
theorem C6_registry_init (pingOk : NodeInfo → Bool) (nodes : List (Str × NodeInfo)) :
    (connect_nodes pingOk nodes).1 = nodes.map (fun p => p.2) ∧
    ((∃ cs, (connect_nodes pingOk nodes).2 = Except.ok cs) ↔
      ∃ p ∈ nodes, pingOk p.2 = true) ∧
    (∀ cs, (connect_nodes pingOk nodes).2 = Except.ok cs → cs ≠ []) ∧
    (∀ name info rest, pingOk info = false →
      connectAll pingOk ((name, info) :: rest) = connectAll pingOk rest) := by
  refine ⟨rfl, ?_, ?_, ?_⟩
  · by_cases hE : connectAll pingOk nodes = []
    · constructor
      · rintro ⟨cs, hcs⟩
        simp [connect_nodes, hE] at hcs
      · rintro ⟨p, hp, hping⟩
        have := (connectAll_eq_nil_iff pingOk nodes).mp hE p hp
        rw [hping] at this
        exact absurd this (by simp)
    · constructor
      · intro _
        by_contra hnone
        push_neg at hnone
        apply hE
        rw [connectAll_eq_nil_iff]
        intro p hp
        have hne := hnone p hp
        cases hb : pingOk p.2
        · rfl
        · exact absurd hb hne
      · intro _
        refine ⟨connectAll pingOk nodes, ?_⟩
        simp [connect_nodes, List.isEmpty_iff, hE]
  · intro cs hcs
    by_cases hE : connectAll pingOk nodes = []
    · simp [connect_nodes, hE] at hcs
    · have : cs = connectAll pingOk nodes := by
        simp [connect_nodes, List.isEmpty_iff, hE] at hcs
        exact hcs.symm
      rw [this]
      exact hE
  · intro name info rest hping
    simp [connectAll, hping]

/-- Witness for C6: with only port 7001 reachable, construction succeeds
and holds exactly node1. -/
theorem C6_registry_init_witness :
    (connect_nodes (fun info => info.port == 7001) defaultNodes).2
      = Except.ok [str ("node1")] ∧
    ([str ("node1")] : List Str) ≠ [] :=
  ⟨rfl, (C6_registry_init (fun info => info.port == 7001) defaultNodes).2.2.1
    [str ("node1")] rfl⟩

/-- C1 counterexample: a MOVED redirect naming `unknown-node`, absent from
the alias table (`parse_redirect` returns `none`), does not fail with any
resolution error — `_execute_command` silently retries the command on the
next `pick()`-chosen node and succeeds, and `SimpleClusterClient` retries
on the default first node (contacting it a second time) and wraps the
failure in a `ConnectionError`, not a resolution error. -/
theorem C1_counterexample :
    parse_redirect demoClient.container_to_port (str ("100 unknown-node:6379")) = none ∧
    (execute_command unknownAliasWorld demoClient 5).result = Except.ok 42 ∧
    (execute_command unknownAliasWorld demoClient 5).trace
      = [Event.contact (str ("node1")), Event.contact (str ("node2"))] ∧
    (simple_op simpleFallbackWorld demoClient.clients).1
      = Except.error (PyErr.connError (str ("MOVED 100 unknown-node:6379"))) ∧
    (simple_op simpleFallbackWorld demoClient.clients).2
      = [Event.contact (str ("node1")), Event.contact (str ("node1"))] :=
  ⟨rfl, rfl, rfl, rfl, rfl⟩

/-- C1 amended: when a redirect's target does not resolve (alias missing,
or no connected client for the resolved port), no resolution error is ever
raised, but the behaviour depends on the redirect kind.  For an explicit
MOVED- or ASK-classified redirect: on the final attempt the original
redirect error is re-raised, and on non-final attempts the command is
silently retried against the next `pick()`-chosen node, whose reply is
returned on success.  For a heuristic redirect (a plain `ResponseError`
matching the digit-and-colon test): the original error is re-raised
immediately after the single node contact, with no retry on any
attempt. -/
theorem C1_amended_silent_retry (w : World α) (st : RedirectClusterClient) (msg : Str)
    (v : α)
    (hunres : parse_redirect st.container_to_port msg = none ∨
      ∃ port, parse_redirect st.container_to_port msg = some port ∧
        get_client_by_port st port = none)
    (h2 : w.run (pickAt st 1) = Except.ok v) :
    (w.run (pickAt st 0) = Except.error (PyErr.moved msg) →
      (execute_command w st 1).result = Except.error (PyErr.moved msg) ∧
      (execute_command w st 1).trace = [Event.contact (pickAt st 0)] ∧
      (execute_command w st 5).result = Except.ok v ∧
      (execute_command w st 5).trace
        = [Event.contact (pickAt st 0), Event.contact (pickAt st 1)]) ∧
    (w.run (pickAt st 0) = Except.error (PyErr.ask msg) →
      (execute_command w st 1).result = Except.error (PyErr.ask msg) ∧
      (execute_command w st 1).trace = [Event.contact (pickAt st 0)] ∧
      (execute_command w st 5).result = Except.ok v ∧
      (execute_command w st 5).trace
        = [Event.contact (pickAt st 0), Event.contact (pickAt st 1)]) ∧
    (looksLikeRedirect msg = true →
      w.run (pickAt st 0) = Except.error (PyErr.resp msg) →
      (execute_command w st 5).result = Except.error (PyErr.resp msg) ∧
      (execute_command w st 5).trace = [Event.contact (pickAt st 0)]) := by
  refine ⟨?_, ?_, ?_⟩
  · intro h
    have e1 : execute_command w st 1 =
        ⟨Except.error (PyErr.moved msg), (get_any_client st).2,
         [Event.contact (pickAt st 0)]⟩ :=
      execGo_moved_unres_last w 1 st [] msg h hunres
    have s1 : execute_command w st 5 =
        execGo w 5 (get_any_client st).2 4 [Event.contact (pickAt st 0)] :=
      execGo_moved_unres_step w 5 4 st [] msg h hunres rfl
    have s2 : execGo w 5 (get_any_client st).2 4 [Event.contact (pickAt st 0)] =
        ⟨Except.ok v, (get_any_client (get_any_client st).2).2,
         [Event.contact (pickAt st 0), Event.contact (pickAt st 1)]⟩ :=
      execGo_ok_step w 5 3 (get_any_client st).2 [Event.contact (pickAt st 0)] v h2
    rw [e1, s1, s2]
    exact ⟨rfl, rfl, rfl, rfl⟩
  · intro h
    have e1 : execute_command w st 1 =
        ⟨Except.error (PyErr.ask msg), (get_any_client st).2,
         [Event.contact (pickAt st 0)]⟩ :=
      execGo_ask_unres_last w 1 st [] msg h hunres
    have s1 : execute_command w st 5 =
        execGo w 5 (get_any_client st).2 4 [Event.contact (pickAt st 0)] :=
      execGo_ask_unres_step w 5 4 st [] msg h hunres rfl
    have s2 : execGo w 5 (get_any_client st).2 4 [Event.contact (pickAt st 0)] =
        ⟨Except.ok v, (get_any_client (get_any_client st).2).2,
         [Event.contact (pickAt st 0), Event.contact (pickAt st 1)]⟩ :=
      execGo_ok_step w 5 3 (get_any_client st).2 [Event.contact (pickAt st 0)] v h2
    rw [e1, s1, s2]
    exact ⟨rfl, rfl, rfl, rfl⟩
  · intro _ h
    have e : execute_command w st 5 =
        ⟨Except.error (PyErr.resp msg), (get_any_client st).2,
         [Event.contact (pickAt st 0)]⟩ :=
      execGo_resp_unres_step w 5 4 st [] msg h hunres
    rw [e]
    exact ⟨rfl, rfl⟩

/-- Witness for the amended C1, exercising all three redirect kinds with
the same unresolvable target on concrete worlds and the concrete client. -/
theorem C1_amended_silent_retry_witness :
    ((execute_command unknownAliasWorld demoClient 1).result
        = Except.error (PyErr.moved (str ("100 unknown-node:6379"))) ∧
      (execute_command unknownAliasWorld demoClient 1).trace
        = [Event.contact (str ("node1"))] ∧
      (execute_command unknownAliasWorld demoClient 5).result = Except.ok 42 ∧
      (execute_command unknownAliasWorld demoClient 5).trace
        = [Event.contact (str ("node1")), Event.contact (str ("node2"))]) ∧
    ((execute_command askUnresWorld demoClient 1).result
        = Except.error (PyErr.ask (str ("100 unknown-node:6379"))) ∧
      (execute_command askUnresWorld demoClient 1).trace
        = [Event.contact (str ("node1"))] ∧
      (execute_command askUnresWorld demoClient 5).result = Except.ok 42 ∧
      (execute_command askUnresWorld demoClient 5).trace
        = [Event.contact (str ("node1")), Event.contact (str ("node2"))]) ∧
    ((execute_command heuristicUnresWorld demoClient 5).result
        = Except.error (PyErr.resp (str ("100 unknown-node:6379"))) ∧
      (execute_command heuristicUnresWorld demoClient 5).trace
        = [Event.contact (str ("node1"))]) :=
  ⟨(C1_amended_silent_retry unknownAliasWorld demoClient
      (str ("100 unknown-node:6379")) 42 (Or.inl rfl) rfl).1 rfl,
   (C1_amended_silent_retry askUnresWorld demoClient
      (str ("100 unknown-node:6379")) 42 (Or.inl rfl) rfl).2.1 rfl,
   (C1_amended_silent_retry heuristicUnresWorld demoClient
      (str ("100 unknown-node:6379")) 42 (Or.inl rfl) rfl).2.2 rfl rfl⟩

/-- C2 counterexample: with budget 2 and nodes that always answer MOVED to
a resolvable target, the call makes four node contacts (each loop
iteration absorbs two MOVED responses: the pick and the resolved-target
retry) and then fails by re-raising the last MOVED error, not with any
`RedirectLoopExceeded`-style exhaustion error. -/
theorem C2_counterexample :
    (execute_command movedWorld demoClient 2).result
      = Except.error (PyErr.moved (str ("100 redis-node-2:6379"))) ∧
    (execute_command movedWorld demoClient 2).trace
      = [Event.contact (str ("node1")), Event.contact (str ("node2")),
         Event.contact (str ("node2")), Event.contact (str ("node2"))] ∧
    (execute_command movedWorld demoClient 2).result
      ≠ Except.error (PyErr.exhausted 2) :=
  ⟨rfl, rfl, fun heq => PyErr.noConfusion (Except.error.inj heq)⟩

/-- C2 amended: one hop of budget is consumed per loop iteration, but a
single iteration absorbs up to two MOVED responses (the initial pick and
the resolved-target retry); with budget 2 and a world that always answers
MOVED with a resolvable target, four node contacts occur and the call
fails by re-raising the last MOVED error — the terminal exhaustion
`Exception` of `_execute_command` is unreachable for any positive
budget. -/
theorem C2_amended_budget (w : World α) (st : RedirectClusterClient) (msg : Str)
    (port : Nat) (tc : Str)
    (hall : ∀ x, w.run x = Except.error (PyErr.moved msg))
    (hp : parse_redirect st.container_to_port msg = some port)
    (hl : get_client_by_port st port = some tc) :
    (execute_command w st 2).result = Except.error (PyErr.moved msg) ∧
    (execute_command w st 2).trace
      = [Event.contact (pickAt st 0), Event.contact tc,
         Event.contact (pickAt st 1), Event.contact tc] ∧
    (execute_command w st 2).result ≠ Except.error (PyErr.exhausted 2) := by
  have s1 : execute_command w st 2 =
      execGo w 2 (get_any_client st).2 1
        [Event.contact (pickAt st 0), Event.contact tc] :=
    execGo_moved_tc_cont_step w 2 1 st [] msg port tc (PyErr.moved msg)
      (hall _) hp hl (hall tc) rfl
  have s2 : execGo w 2 (get_any_client st).2 1
      [Event.contact (pickAt st 0), Event.contact tc] =
      ⟨Except.error (PyErr.moved msg), (get_any_client (get_any_client st).2).2,
       [Event.contact (pickAt st 0), Event.contact tc,
        Event.contact (pickAt st 1), Event.contact tc]⟩ :=
    execGo_moved_tc_last w 2 (get_any_client st).2
      [Event.contact (pickAt st 0), Event.contact tc] msg port tc (PyErr.moved msg)
      (hall _) hp hl (hall tc)
  rw [s1, s2]
  exact ⟨rfl, rfl, fun heq => PyErr.noConfusion (Except.error.inj heq)⟩

/-- Witness for the amended C2 at a concrete world and client. -/
theorem C2_amended_budget_witness :
    (execute_command movedWorld demoClient 2).result
      = Except.error (PyErr.moved (str ("100 redis-node-2:6379"))) ∧
    (execute_command movedWorld demoClient 2).trace
      = [Event.contact (str ("node1")), Event.contact (str ("node2")),
         Event.contact (str ("node2")), Event.contact (str ("node2"))] ∧
    (execute_command movedWorld demoClient 2).result
      ≠ Except.error (PyErr.exhausted 2) :=
  C2_amended_budget movedWorld demoClient (str ("100 redis-node-2:6379")) 7002
    (str ("node2")) (fun _ => rfl) rfl rfl

/-- C7 counterexample: with every node unreachable at the transport level,
the failed node is contacted again on later attempts (positions 3 and 5 of
the trace) and the client state other than the counter is unchanged — no
node is ever marked unhealthy or removed from the `pick()` rotation,
because the client keeps no health state at all. -/
theorem C7_counterexample :
    (execute_command downWorld demoClient2 5).trace
      = [Event.contact (str ("node1")), Event.contact (str ("node2")),
         Event.contact (str ("node1")), Event.contact (str ("node2")),
         Event.contact (str ("node1"))] ∧
    (execute_command downWorld demoClient2 5).state.clients = demoClient2.clients ∧
    (execute_command downWorld demoClient2 5).state.nodes = demoClient2.nodes ∧
    (execute_command downWorld demoClient2 5).result
      = Except.error (PyErr.other (str ("Connection refused"))) :=
  ⟨rfl, rfl, rfl, rfl⟩

/-- C7 amended: a transport-level failure on the first attempt causes a
silent retry against the next `pick()`-chosen node, whose reply is
returned on success; no health state exists, so nothing in the registry is
marked — the node table, alias table and client set are unchanged. -/
theorem C7_amended_transport_retry (w : World α) (st : RedirectClusterClient)
    (msg : Str) (v : α)
    (h1 : w.run (pickAt st 0) = Except.error (PyErr.other msg))
    (h2 : w.run (pickAt st 1) = Except.ok v) :
    (execute_command w st 5).result = Except.ok v ∧
    (execute_command w st 5).trace
      = [Event.contact (pickAt st 0), Event.contact (pickAt st 1)] ∧
    (execute_command w st 5).state.clients = st.clients ∧
    (execute_command w st 5).state.nodes = st.nodes ∧
    (execute_command w st 5).state.container_to_port = st.container_to_port := by
  have s1 : execute_command w st 5 =
      execGo w 5 (get_any_client st).2 4 [Event.contact (pickAt st 0)] :=
    execGo_other_cont_step w 5 4 st [] msg h1 rfl
  have s2 : execGo w 5 (get_any_client st).2 4 [Event.contact (pickAt st 0)] =
      ⟨Except.ok v, (get_any_client (get_any_client st).2).2,
       [Event.contact (pickAt st 0), Event.contact (pickAt st 1)]⟩ :=
    execGo_ok_step w 5 3 (get_any_client st).2 [Event.contact (pickAt st 0)] v h2
  rw [s1, s2]
  exact ⟨rfl, rfl, rfl, rfl, rfl⟩

/-- Witness for the amended C7 at a concrete world and client. -/
theorem C7_amended_transport_retry_witness :
    (execute_command failoverWorld demoClient 5).result = Except.ok 7 ∧
    (execute_command failoverWorld demoClient 5).trace
      = [Event.contact (str ("node1")), Event.contact (str ("node2"))] ∧
    (execute_command failoverWorld demoClient 5).state.clients = demoClient.clients ∧
    (execute_command failoverWorld demoClient 5).state.nodes = demoClient.nodes ∧
    (execute_command failoverWorld demoClient 5).state.container_to_port
      = demoClient.container_to_port :=
  C7_amended_transport_retry failoverWorld demoClient
    (str ("Connection refused")) 7 rfl rfl

end RedisClusterDemo
